import Mathlib

/-!
Verification development for the `google-workspace-apis` crate: a shallow
embedding of the OAuth2 token lifecycle (`src/auth/mod.rs`) and of the
type-state calendar-events request builder
(`src/calendar/events/requests.rs`, `src/calendar/events/types.rs`),
with theorems settling the specification's claims about them.
-/

namespace GoogleWorkspaceApis

/-- Model of a `serde_json::Value`: JSON values as an inductive tree.
Numbers are modelled as integers, which covers every numeric field the
embedded code reads (`expires_in`, `x_refresh_token_expires_in` are read
with `as_i64`). -/
inductive Json where
  | null : Json
  | bool (b : Bool) : Json
  | num (n : Int) : Json
  | str (s : String) : Json
  | arr (elems : List Json) : Json
  | obj (fields : List (String × Json)) : Json

/-- Model of `serde_json::Value` indexing `json["key"]`: on an object,
the value of the first binding of the key, `Null` when the key is absent;
`Null` on any non-object value. -/
def jsonIndex (j : Json) (key : String) : Json :=
  match j with
  | Json.obj fields => (List.lookup key fields).getD Json.null
  | _ => Json.null

/-- Model of `serde_json::Value::as_str`. -/
def Json.as_str : Json → Option String
  | Json.str s => some s
  | _ => none

/-- Model of `serde_json::Value::as_i64`: the integer value of a numeric
JSON value (floats do not occur in this model). -/
def Json.as_i64 : Json → Option Int
  | Json.num n => some n
  | _ => none

/-- Whether a JSON object value carries a binding for `key`. Used to state
what "the response omits the field" means. -/
def jsonHasKey (j : Json) (key : String) : Prop :=
  match j with
  | Json.obj fields => (List.lookup key fields).isSome
  | _ => False

instance (j : Json) (key : String) : Decidable (jsonHasKey j key) := by
  unfold jsonHasKey
  cases j <;> infer_instance

/-- Modelled from the spec: the `ClientCredentials` struct of the crate's
`auth::client` module (the module itself is not among the provided source
files; its field set is pinned both by spec section 3 and by the literal
uses in `src/auth/mod.rs`). -/
structure ClientCredentials where
  client_id : String
  client_secret : String
  redirect_uri : String
  refresh_token : String

/-- Modelled from the spec: the `AccessToken` struct of the crate's
`auth::client` module (the module itself is not among the provided source
files; its field set is pinned both by spec section 3 and by the literal
struct expressions in `src/auth/mod.rs`). -/
structure AccessToken where
  token_type : String
  access_token : String
  expires_in : Int
  refresh_token : String
  refresh_token_expires_in : Int
  scope : String

/-- Success branch of `refresh_acces_token` (`src/auth/mod.rs`, lines
162-184): given the parsed JSON body of an HTTP-2xx refresh response, the
`AccessToken` the function returns. The rotation rule is the
`unwrap_or_else` on `json["refresh_token"].as_str()`. -/
def refresh_acces_token_success
    (client_credentials : ClientCredentials) (json : Json) : AccessToken :=
  let refresh_token :=
    ((jsonIndex json "refresh_token").as_str).getD client_credentials.refresh_token
  { token_type := ((jsonIndex json "token_type").as_str).getD ""
  , access_token := ((jsonIndex json "access_token").as_str).getD ""
  , expires_in := ((jsonIndex json "expires_in").as_i64).getD 0
  , refresh_token := refresh_token
  , refresh_token_expires_in := 0
  , scope := ((jsonIndex json "scope").as_str).getD "" }

/-- Fallback branch of `get_acces_token` (`src/auth/mod.rs`, lines
117-132): the `AccessToken` built field by field from the parsed JSON body
when strict deserialization fails. It reads `refresh_token_expires_in`
from the response key `x_refresh_token_expires_in`. -/
def get_acces_token_fallback (json : Json) : AccessToken :=
  { token_type := ((jsonIndex json "token_type").as_str).getD ""
  , access_token := ((jsonIndex json "access_token").as_str).getD ""
  , expires_in := ((jsonIndex json "expires_in").as_i64).getD 0
  , refresh_token := ((jsonIndex json "refresh_token").as_str).getD ""
  , refresh_token_expires_in := ((jsonIndex json "x_refresh_token_expires_in").as_i64).getD 0
  , scope := ((jsonIndex json "scope").as_str).getD "" }

/-- Model of `chrono::DateTime<chrono::Utc>` at its interface boundary:
the only observations the embedded code makes of a timestamp are its
RFC 3339 rendering (`to_rfc3339`, and serde serialization, which for
chrono `DateTime<Utc>` is that same rendering). -/
structure UtcDateTime where
  rfc3339 : String

/-- Model of `chrono::DateTime::to_rfc3339`. -/
def UtcDateTime.to_rfc3339 (t : UtcDateTime) : String :=
  t.rfc3339

/-! Payload data types, embedded from `src/calendar/events/types.rs`.
Rust's raw identifiers `r#type` and the keyword field `private` are
rendered `type_` and `private_`; every other field keeps its source name.
`Vec<T>` is `List T`, `HashMap<String, String>` is an association list
(`List (String × String)`), `i64`/`i32`/`i16`/`i8` are `Int`. -/

/-- `EventDateTime` (`types.rs` line 461). -/
structure EventDateTime where
  date : Option String
  date_time : Option UtcDateTime
  time_zone : Option String

/-- `EventAttendee` (`types.rs` line 478). -/
structure EventAttendee where
  id : String
  email : String
  display_name : String
  organizer : Option Bool
  self_ : Option Bool
  resource : Option Bool
  optional : Option Bool
  response_status : String
  comment : String
  additional_guests : Int

/-- `EventDefaultReminder` (`types.rs` line 5). -/
structure EventDefaultReminder where
  method : String
  minutes : Int

/-- `EventReminders` (`types.rs` line 775). -/
structure EventReminders where
  use_default : Option Bool
  overrides : List EventDefaultReminder

/-- `EventSource` (`types.rs` line 792). -/
structure EventSource where
  url : String
  title : String

/-- `CustomLocation` (`types.rs` line 840). -/
structure CustomLocation where
  label : String

/-- `OfficeLocation` (`types.rs` line 850). -/
structure OfficeLocation where
  building_id : String
  floor_id : String
  floor_section_id : String
  desk_id : String
  label : String

/-- `WorkingLocationProperties` (`types.rs` line 809); `home_office` is a
free-form `serde_json::Value`. -/
structure WorkingLocationProperties where
  type_ : String
  home_office : Option Json
  custom_location : Option CustomLocation
  office_location : Option OfficeLocation

/-- `OutOfOfficeProperties` (`types.rs` line 892). -/
structure OutOfOfficeProperties where
  auto_decline_mode : String
  decline_message : String

/-- `FocusTimeProperties` (`types.rs` line 911). -/
structure FocusTimeProperties where
  auto_decline_mode : String
  decline_message : String
  chat_status : String

/-- `BirthdayProperties` (`types.rs` line 980). -/
structure BirthdayProperties where
  contact : String
  type_ : String
  custom_type_name : String

/-- `ConferenceSolutionKey` (`types.rs` line 615). -/
structure ConferenceSolutionKey where
  type_ : String

/-- `ConferenceSolution` (`types.rs` line 698). -/
structure ConferenceSolution where
  key : Option ConferenceSolutionKey
  name : String
  icon_uri : String

/-- `EntryPoint` (`types.rs` line 636). -/
structure EntryPoint where
  entry_point_type : String
  uri : String
  label : String
  pin : String
  access_code : String
  meeting_code : String
  passcode : String
  password : String

/-- `ConferenceData` (`types.rs` line 1340). -/
structure ConferenceData where
  conference_solution : Option ConferenceSolution
  entry_points : List EntryPoint

/-- `EventGadget` (`types.rs` line 719). -/
structure EventGadget where
  type_ : String
  title : String
  link : String
  icon_link : String
  width : Int
  height : Int
  display : String
  preferences : Option (List (String × String))

/-- `ExtendedProperties` (`types.rs` line 1351). -/
structure ExtendedProperties where
  private_ : Option (List (String × String))
  shared : Option (List (String × String))

/-- `CreateEventRequest` (`types.rs` line 1227): required `end`/`start`,
every other field optional. -/
structure CreateEventRequest where
  end_ : EventDateTime
  start : EventDateTime
  anyone_can_add_self : Option Bool
  attendees : List EventAttendee
  birthday_properties : Option BirthdayProperties
  color_id : Option String
  conference_data : Option ConferenceData
  description : Option String
  event_type : Option String
  extended_properties : Option ExtendedProperties
  focus_time_properties : Option FocusTimeProperties
  gadget : Option EventGadget
  guests_can_invite_others : Option Bool
  guests_can_modify : Option Bool
  guests_can_see_other_guests : Option Bool
  id : Option String
  ical_uid : Option String
  location : Option String
  out_of_office_properties : Option OutOfOfficeProperties
  recurrence : List String
  reminders : Option EventReminders
  sequence : Option Int
  source : Option EventSource
  status : Option String
  summary : Option String
  transparency : Option String
  visibility : Option String
  working_location_properties : Option WorkingLocationProperties

/-- `PatchEventRequest` (`types.rs` line 1115): every field optional. -/
structure PatchEventRequest where
  end_ : Option EventDateTime
  start : Option EventDateTime
  anyone_can_add_self : Option Bool
  attendees : List EventAttendee
  birthday_properties : Option BirthdayProperties
  color_id : Option String
  conference_data : Option ConferenceData
  description : Option String
  event_type : Option String
  extended_properties : Option ExtendedProperties
  focus_time_properties : Option FocusTimeProperties
  gadget : Option EventGadget
  guests_can_invite_others : Option Bool
  guests_can_modify : Option Bool
  guests_can_see_other_guests : Option Bool
  id : Option String
  location : Option String
  out_of_office_properties : Option OutOfOfficeProperties
  recurrence : List String
  reminders : Option EventReminders
  sequence : Option Int
  source : Option EventSource
  status : Option String
  summary : Option String
  transparency : Option String
  visibility : Option String
  working_location_properties : Option WorkingLocationProperties

/-- `CreateEventRequest::new` (`types.rs` lines 1361-1394): required
`start`/`end`, every optional field `None` and every list empty. -/
def CreateEventRequest.new (start : EventDateTime) (end_ : EventDateTime) :
    CreateEventRequest :=
  { start := start
  , end_ := end_
  , anyone_can_add_self := none
  , attendees := []
  , birthday_properties := none
  , color_id := none
  , conference_data := none
  , description := none
  , event_type := none
  , extended_properties := none
  , focus_time_properties := none
  , gadget := none
  , guests_can_invite_others := none
  , guests_can_modify := none
  , guests_can_see_other_guests := none
  , id := none
  , ical_uid := none
  , location := none
  , out_of_office_properties := none
  , recurrence := []
  , reminders := none
  , sequence := none
  , source := none
  , status := none
  , summary := none
  , transparency := none
  , visibility := none
  , working_location_properties := none }

/-- `PatchEventRequest`'s `#[derive(Default)]` value: every option `None`,
every list empty (Rust `Default` for `Option`/`Vec`). -/
def PatchEventRequest.default : PatchEventRequest :=
  { end_ := none
  , start := none
  , anyone_can_add_self := none
  , attendees := []
  , birthday_properties := none
  , color_id := none
  , conference_data := none
  , description := none
  , event_type := none
  , extended_properties := none
  , focus_time_properties := none
  , gadget := none
  , guests_can_invite_others := none
  , guests_can_modify := none
  , guests_can_see_other_guests := none
  , id := none
  , location := none
  , out_of_office_properties := none
  , recurrence := []
  , reminders := none
  , sequence := none
  , source := none
  , status := none
  , summary := none
  , transparency := none
  , visibility := none
  , working_location_properties := none }

/-! Serde serialization model. Each Rust struct derives `Serialize`;
fields are emitted in declaration order under their serde names
(`rename` / `rename_all = "camelCase"` where the source says so). A field
with `skip_serializing_if = "Option::is_none"` is omitted when `None`,
`"Vec::is_empty"` when empty, `"String::is_empty"` when the empty string,
and `"crate::utils::validation::zero_i64"` when zero. The helpers below
model exactly these four skip rules: each yields the singleton key/value
list when the field is emitted and `[]` when it is skipped. -/

/-- Emission of an `Option` field skipped via `Option::is_none`. -/
def optField {α : Type} (key : String) (o : Option α) (f : α → Json) :
    List (String × Json) :=
  match o with
  | some v => [(key, f v)]
  | none => []

/-- Emission of a `String` field skipped via `String::is_empty`. -/
def strField (key : String) (s : String) : List (String × Json) :=
  if s = "" then [] else [(key, Json.str s)]

/-- Emission of a `Vec` field skipped via `Vec::is_empty`. -/
def vecField {α : Type} (key : String) (xs : List α) (f : α → Json) :
    List (String × Json) :=
  if xs.isEmpty then [] else [(key, Json.arr (xs.map f))]

/-- Emission of an `i64` field skipped via
`crate::utils::validation::zero_i64`. -/
def i64Field (key : String) (n : Int) : List (String × Json) :=
  if n = 0 then [] else [(key, Json.num n)]

/-- Serde serialization of a `HashMap<String, String>`. -/
def serializeStringMap (m : List (String × String)) : Json :=
  Json.obj (m.map (fun p => (p.1, Json.str p.2)))

/-- Serde serialization of `EventDateTime`: keys `date`, `dateTime`,
`timeZone`, each omitted when `None`; chrono serializes the timestamp as
its RFC 3339 rendering. -/
def serializeEventDateTime (e : EventDateTime) : Json :=
  Json.obj
    (optField "date" e.date Json.str
      ++ optField "dateTime" e.date_time (fun t => Json.str t.rfc3339)
      ++ optField "timeZone" e.time_zone Json.str)

/-- Serde serialization of `EventAttendee`. -/
def serializeEventAttendee (a : EventAttendee) : Json :=
  Json.obj
    (strField "id" a.id
      ++ strField "email" a.email
      ++ strField "displayName" a.display_name
      ++ optField "organizer" a.organizer Json.bool
      ++ optField "self" a.self_ Json.bool
      ++ optField "resource" a.resource Json.bool
      ++ optField "optional" a.optional Json.bool
      ++ strField "responseStatus" a.response_status
      ++ strField "comment" a.comment
      ++ i64Field "additionalGuests" a.additional_guests)

/-- Serde serialization of `EventDefaultReminder`. -/
def serializeEventDefaultReminder (r : EventDefaultReminder) : Json :=
  Json.obj (strField "method" r.method ++ i64Field "minutes" r.minutes)

/-- Serde serialization of `EventReminders`. -/
def serializeEventReminders (r : EventReminders) : Json :=
  Json.obj
    (optField "useDefault" r.use_default Json.bool
      ++ vecField "overrides" r.overrides serializeEventDefaultReminder)

/-- Serde serialization of `EventSource`. -/
def serializeEventSource (s : EventSource) : Json :=
  Json.obj (strField "url" s.url ++ strField "title" s.title)

/-- Serde serialization of `CustomLocation`. -/
def serializeCustomLocation (l : CustomLocation) : Json :=
  Json.obj (strField "label" l.label)

/-- Serde serialization of `OfficeLocation`. -/
def serializeOfficeLocation (l : OfficeLocation) : Json :=
  Json.obj
    (strField "buildingId" l.building_id
      ++ strField "floorId" l.floor_id
      ++ strField "floorSectionId" l.floor_section_id
      ++ strField "deskId" l.desk_id
      ++ strField "label" l.label)

/-- Serde serialization of `WorkingLocationProperties`. -/
def serializeWorkingLocationProperties (w : WorkingLocationProperties) : Json :=
  Json.obj
    (strField "type" w.type_
      ++ optField "homeOffice" w.home_office id
      ++ optField "customLocation" w.custom_location serializeCustomLocation
      ++ optField "officeLocation" w.office_location serializeOfficeLocation)

/-- Serde serialization of `OutOfOfficeProperties`. -/
def serializeOutOfOfficeProperties (o : OutOfOfficeProperties) : Json :=
  Json.obj
    (strField "autoDeclineMode" o.auto_decline_mode
      ++ strField "declineMessage" o.decline_message)

/-- Serde serialization of `FocusTimeProperties`. -/
def serializeFocusTimeProperties (f : FocusTimeProperties) : Json :=
  Json.obj
    (strField "autoDeclineMode" f.auto_decline_mode
      ++ strField "declineMessage" f.decline_message
      ++ strField "chatStatus" f.chat_status)

/-- Serde serialization of `BirthdayProperties`. -/
def serializeBirthdayProperties (b : BirthdayProperties) : Json :=
  Json.obj
    (strField "contact" b.contact
      ++ strField "type" b.type_
      ++ strField "customTypeName" b.custom_type_name)

/-- Serde serialization of `ConferenceSolutionKey`. -/
def serializeConferenceSolutionKey (k : ConferenceSolutionKey) : Json :=
  Json.obj (strField "type" k.type_)

/-- Serde serialization of `ConferenceSolution`. -/
def serializeConferenceSolution (s : ConferenceSolution) : Json :=
  Json.obj
    (optField "key" s.key serializeConferenceSolutionKey
      ++ strField "name" s.name
      ++ strField "iconUri" s.icon_uri)

/-- Serde serialization of `EntryPoint`. -/
def serializeEntryPoint (e : EntryPoint) : Json :=
  Json.obj
    (strField "entryPointType" e.entry_point_type
      ++ strField "uri" e.uri
      ++ strField "label" e.label
      ++ strField "pin" e.pin
      ++ strField "accessCode" e.access_code
      ++ strField "meetingCode" e.meeting_code
      ++ strField "passcode" e.passcode
      ++ strField "password" e.password)

/-- Serde serialization of `ConferenceData`; this struct has no serde
rename attributes, so its keys stay snake_case. -/
def serializeConferenceData (c : ConferenceData) : Json :=
  Json.obj
    (optField "conference_solution" c.conference_solution serializeConferenceSolution
      ++ vecField "entry_points" c.entry_points serializeEntryPoint)

/-- Serde serialization of `EventGadget`. -/
def serializeEventGadget (g : EventGadget) : Json :=
  Json.obj
    (strField "type" g.type_
      ++ strField "title" g.title
      ++ strField "link" g.link
      ++ strField "iconLink" g.icon_link
      ++ i64Field "width" g.width
      ++ i64Field "height" g.height
      ++ strField "display" g.display
      ++ optField "preferences" g.preferences serializeStringMap)

/-- Serde serialization of `ExtendedProperties`; no rename attributes, so
its keys are `private` and `shared`. -/
def serializeExtendedProperties (e : ExtendedProperties) : Json :=
  Json.obj
    (optField "private" e.private_ serializeStringMap
      ++ optField "shared" e.shared serializeStringMap)

/-- Serde serialization of `CreateEventRequest` under
`rename_all = "camelCase"`: `end` and `start` are always emitted, every
other field only when non-empty per its skip rule, in declaration order. -/
def serializeCreateEventRequest (c : CreateEventRequest) : Json :=
  Json.obj
    ([("end", serializeEventDateTime c.end_), ("start", serializeEventDateTime c.start)]
      ++ optField "anyoneCanAddSelf" c.anyone_can_add_self Json.bool
      ++ vecField "attendees" c.attendees serializeEventAttendee
      ++ optField "birthdayProperties" c.birthday_properties serializeBirthdayProperties
      ++ optField "colorId" c.color_id Json.str
      ++ optField "conferenceData" c.conference_data serializeConferenceData
      ++ optField "description" c.description Json.str
      ++ optField "eventType" c.event_type Json.str
      ++ optField "extendedProperties" c.extended_properties serializeExtendedProperties
      ++ optField "focusTimeProperties" c.focus_time_properties serializeFocusTimeProperties
      ++ optField "gadget" c.gadget serializeEventGadget
      ++ optField "guestsCanInviteOthers" c.guests_can_invite_others Json.bool
      ++ optField "guestsCanModify" c.guests_can_modify Json.bool
      ++ optField "guestsCanSeeOtherGuests" c.guests_can_see_other_guests Json.bool
      ++ optField "id" c.id Json.str
      ++ optField "iCalUID" c.ical_uid Json.str
      ++ optField "location" c.location Json.str
      ++ optField "outOfOfficeProperties" c.out_of_office_properties serializeOutOfOfficeProperties
      ++ vecField "recurrence" c.recurrence Json.str
      ++ optField "reminders" c.reminders serializeEventReminders
      ++ optField "sequence" c.sequence Json.num
      ++ optField "source" c.source serializeEventSource
      ++ optField "status" c.status Json.str
      ++ optField "summary" c.summary Json.str
      ++ optField "transparency" c.transparency Json.str
      ++ optField "visibility" c.visibility Json.str
      ++ optField "workingLocationProperties" c.working_location_properties
          serializeWorkingLocationProperties)

/-- Serde serialization of `PatchEventRequest` under
`rename_all = "camelCase"`: every field optional, emitted in declaration
order only when non-empty per its skip rule. -/
def serializePatchEventRequest (p : PatchEventRequest) : Json :=
  Json.obj
    (optField "end" p.end_ serializeEventDateTime
      ++ optField "start" p.start serializeEventDateTime
      ++ optField "anyoneCanAddSelf" p.anyone_can_add_self Json.bool
      ++ vecField "attendees" p.attendees serializeEventAttendee
      ++ optField "birthdayProperties" p.birthday_properties serializeBirthdayProperties
      ++ optField "colorId" p.color_id Json.str
      ++ optField "conferenceData" p.conference_data serializeConferenceData
      ++ optField "description" p.description Json.str
      ++ optField "eventType" p.event_type Json.str
      ++ optField "extendedProperties" p.extended_properties serializeExtendedProperties
      ++ optField "focusTimeProperties" p.focus_time_properties serializeFocusTimeProperties
      ++ optField "gadget" p.gadget serializeEventGadget
      ++ optField "guestsCanInviteOthers" p.guests_can_invite_others Json.bool
      ++ optField "guestsCanModify" p.guests_can_modify Json.bool
      ++ optField "guestsCanSeeOtherGuests" p.guests_can_see_other_guests Json.bool
      ++ optField "id" p.id Json.str
      ++ optField "location" p.location Json.str
      ++ optField "outOfOfficeProperties" p.out_of_office_properties serializeOutOfOfficeProperties
      ++ vecField "recurrence" p.recurrence Json.str
      ++ optField "reminders" p.reminders serializeEventReminders
      ++ optField "sequence" p.sequence Json.num
      ++ optField "source" p.source serializeEventSource
      ++ optField "status" p.status Json.str
      ++ optField "summary" p.summary Json.str
      ++ optField "transparency" p.transparency Json.str
      ++ optField "visibility" p.visibility Json.str
      ++ optField "workingLocationProperties" p.working_location_properties
          serializeWorkingLocationProperties)

/-- `EventRequest` (`requests.rs` lines 34-39): the tagged union held by
the builder, `Create` for insert and `Patch` for patch. -/
inductive EventRequest where
  | Create (c : CreateEventRequest) : EventRequest
  | Patch (p : PatchEventRequest) : EventRequest

/-- Serde serialization of `EventRequest`: the union is
`#[serde(untagged)]`, so each variant serializes as its payload alone. -/
def serializeEventRequest : EventRequest → Json
  | EventRequest.Create c => serializeCreateEventRequest c
  | EventRequest.Patch p => serializePatchEventRequest p

/-- Serde serialization of the builder's `Option<EventRequest>` field as
sent by `make_request` (`serde_json::to_string(&self.event)`): `None`
serializes as JSON `null`, `Some` as the payload itself. -/
def serializeOptionEventRequest : Option EventRequest → Json
  | some e => serializeEventRequest e
  | none => Json.null

/-- Model of `reqwest::Method` restricted to the verbs this crate touches
(`GET`, `POST`, `PATCH`, `DELETE` are set by the entry transitions; `PUT`
stands in for every other verb reaching `make_request`'s wildcard arm). -/
inductive Method where
  | GET : Method
  | POST : Method
  | PATCH : Method
  | DELETE : Method
  | PUT : Method
deriving DecidableEq

/-- Modelled from the spec: insertion into the Request Context's
"ordered-irrelevant map<string,string>" of query parameters (the `Request`
type lives in the crate's `utils::request` module, which is not among the
provided source files). Inserting an existing key replaces its value;
inserting a fresh key adds the binding. -/
def paramsInsert (key : String) (val : String) :
    List (String × String) → List (String × String)
  | [] => [(key, val)]
  | (k0, v0) :: rest =>
      if k0 = key then (k0, val) :: rest
      else (k0, v0) :: paramsInsert key val rest

/-- Modelled from the spec: the Request Context of `utils::request`
(section 2: "a mutable accumulator of http method, target URL, query
parameters, optional body"; the module is not among the provided source
files). The owning-client handle it also carries is a transport/token
handle with no bearing on the accumulated state, so it is not part of the
state here; the builder's optional body lives in the builder's `event`
field. -/
structure Request where
  method : Method
  url : String
  params : List (String × String)

/-- Modelled from the spec: `Request::new` starts the accumulator empty —
no query parameters and no URL; every entry transition overwrites `method`
and `url` before anything can be dispatched, so the initial method is
immaterial (GET here). -/
def Request.new : Request :=
  { method := Method.GET, url := "", params := [] }

/-- `CalendarEventsClient` (`requests.rs` lines 43-47): the builder's
runtime state is its Request Context plus the optional payload; the mode
tag is `PhantomData`, with no runtime representation, so the mode lives
only in which of the functions below may be applied. -/
structure CalendarEventsClient where
  request : Request
  event : Option EventRequest

/-- `CalendarEventsClient::new` (`requests.rs` lines 53-59). -/
def CalendarEventsClient.new : CalendarEventsClient :=
  { request := Request.new, event := none }

/-- `get_events` (`requests.rs` lines 90-101): Uninitialized → ListMode,
seeding the list URL and GET, with no payload. -/
def CalendarEventsClient.get_events (b : CalendarEventsClient)
    (calendar_id : String) : CalendarEventsClient :=
  { request :=
      { b.request with
        url := "https://www.googleapis.com/calendar/v3/calendars/"
          ++ calendar_id ++ "/events"
      , method := Method.GET }
  , event := none }

/-- `insert_event` (`requests.rs` lines 141-156): Uninitialized →
InsertMode, seeding the list URL, POST, and a fresh `Create` payload. -/
def CalendarEventsClient.insert_event (b : CalendarEventsClient)
    (calendar_id : String) (start : EventDateTime) (end_ : EventDateTime) :
    CalendarEventsClient :=
  { request :=
      { b.request with
        url := "https://www.googleapis.com/calendar/v3/calendars/"
          ++ calendar_id ++ "/events"
      , method := Method.POST }
  , event := some (EventRequest.Create (CreateEventRequest.new start end_)) }

/-- `patch_event` (`requests.rs` lines 188-203): Uninitialized →
PatchMode, seeding the single-event URL, PATCH, and an all-absent `Patch`
payload. -/
def CalendarEventsClient.patch_event (b : CalendarEventsClient)
    (calendar_id : String) (event_id : String) : CalendarEventsClient :=
  { request :=
      { b.request with
        url := "https://www.googleapis.com/calendar/v3/calendars/"
          ++ calendar_id ++ "/events/" ++ event_id
      , method := Method.PATCH }
  , event := some (EventRequest.Patch PatchEventRequest.default) }

/-- `delete_event` (`requests.rs` lines 205-220): Uninitialized →
DeleteMode, seeding the single-event URL and DELETE, with no payload. -/
def CalendarEventsClient.delete_event (b : CalendarEventsClient)
    (calendar_id : String) (event_id : String) : CalendarEventsClient :=
  { request :=
      { b.request with
        url := "https://www.googleapis.com/calendar/v3/calendars/"
          ++ calendar_id ++ "/events/" ++ event_id
      , method := Method.DELETE }
  , event := none }

/-- `EventOrderBy` (`requests.rs` lines 225-228). -/
inductive EventOrderBy where
  | StartTime : EventOrderBy
  | Updated : EventOrderBy

/-- `EventOrderBy::as_str` (`requests.rs` lines 229-236). -/
def EventOrderBy.as_str : EventOrderBy → String
  | EventOrderBy.StartTime => "startTime"
  | EventOrderBy.Updated => "updated"

/-- `EventType` (`requests.rs` lines 243-250). -/
inductive EventType where
  | Birthday : EventType
  | Default : EventType
  | FocusTime : EventType
  | FromGmail : EventType
  | OutOfOffice : EventType
  | WorkingLocation : EventType

/-- `EventType::as_str` (`requests.rs` lines 251-262). -/
def EventType.as_str : EventType → String
  | EventType.Birthday => "birthday"
  | EventType.Default => "default"
  | EventType.FocusTime => "focusTime"
  | EventType.FromGmail => "fromGmail"
  | EventType.OutOfOffice => "outOfOffice"
  | EventType.WorkingLocation => "workingLocation"

namespace EventListMode

/-- `max_results` of the `PaginationRequestTrait` impl for ListMode
(`requests.rs` lines 266-271). -/
def max_results (b : CalendarEventsClient) (max : Int) : CalendarEventsClient :=
  { b with request :=
      { b.request with
        params := paramsInsert "maxResults" (toString max) b.request.params } }

/-- `page_token` of the `PaginationRequestTrait` impl for ListMode
(`requests.rs` lines 274-279). -/
def page_token (b : CalendarEventsClient) (token : String) : CalendarEventsClient :=
  { b with request :=
      { b.request with
        params := paramsInsert "pageToken" token b.request.params } }

/-- `time_min` of the `TimeRequestTrait` impl for ListMode (`requests.rs`
lines 285-290): the timestamp is rendered with `to_rfc3339`. -/
def time_min (b : CalendarEventsClient) (time_min : UtcDateTime) : CalendarEventsClient :=
  { b with request :=
      { b.request with
        params := paramsInsert "timeMin" time_min.to_rfc3339 b.request.params } }

/-- `time_max` of the `TimeRequestTrait` impl for ListMode (`requests.rs`
lines 293-298): the timestamp is rendered with `to_rfc3339`. -/
def time_max (b : CalendarEventsClient) (time_max : UtcDateTime) : CalendarEventsClient :=
  { b with request :=
      { b.request with
        params := paramsInsert "timeMax" time_max.to_rfc3339 b.request.params } }

/-- `event_type` (`requests.rs` lines 303-308). -/
def event_type (b : CalendarEventsClient) (type_ : EventType) : CalendarEventsClient :=
  { b with request :=
      { b.request with
        params := paramsInsert "eventTypes" type_.as_str b.request.params } }

/-- `order_by` (`requests.rs` lines 314-319). -/
def order_by (b : CalendarEventsClient) (by_ : EventOrderBy) : CalendarEventsClient :=
  { b with request :=
      { b.request with
        params := paramsInsert "orderBy" by_.as_str b.request.params } }

/-- `max_attendees` (`requests.rs` lines 322-327). -/
def max_attendees (b : CalendarEventsClient) (max : Int) : CalendarEventsClient :=
  { b with request :=
      { b.request with
        params := paramsInsert "maxAttendees" (toString max) b.request.params } }

/-- `single_events` (`requests.rs` lines 330-335); Rust renders the bool
as `"true"`/`"false"`. -/
def single_events (b : CalendarEventsClient) (single : Bool) : CalendarEventsClient :=
  { b with request :=
      { b.request with
        params := paramsInsert "singleEvents" (toString single) b.request.params } }

/-- `show_hidden_invitations` (`requests.rs` lines 338-343). -/
def show_hidden_invitations (b : CalendarEventsClient) (max : Bool) : CalendarEventsClient :=
  { b with request :=
      { b.request with
        params := paramsInsert "showHiddenInvitations" (toString max) b.request.params } }

/-- `query` (`requests.rs` lines 348-353). -/
def query (b : CalendarEventsClient) (query_str : String) : CalendarEventsClient :=
  { b with request :=
      { b.request with
        params := paramsInsert "q" query_str b.request.params } }

end EventListMode

namespace EventInsertMode

/-- `modify_event` of the InsertMode impl (`requests.rs` lines 662-670):
applies the modifier when the held payload is the `Create` variant and
leaves the builder untouched otherwise. -/
def modify_event (b : CalendarEventsClient)
    (modifier : CreateEventRequest → CreateEventRequest) : CalendarEventsClient :=
  match b.event with
  | some (EventRequest.Create e) =>
      { b with event := some (EventRequest.Create (modifier e)) }
  | _ => b

/-- `set_summary` of InsertMode (`requests.rs` lines 458-460). -/
def set_summary (b : CalendarEventsClient) (summary : String) : CalendarEventsClient :=
  modify_event b (fun event => { event with summary := some summary })

/-- `set_description` of InsertMode (`requests.rs` lines 467-469). -/
def set_description (b : CalendarEventsClient) (descr : String) : CalendarEventsClient :=
  modify_event b (fun event => { event with description := some descr })

/-- `set_location` of InsertMode (`requests.rs` lines 476-478). -/
def set_location (b : CalendarEventsClient) (location : String) : CalendarEventsClient :=
  modify_event b (fun event => { event with location := some location })

/-- `set_attendees` of InsertMode (`requests.rs` lines 485-487): the list
is wholesale-replaced. -/
def set_attendees (b : CalendarEventsClient) (attendees : List EventAttendee) :
    CalendarEventsClient :=
  modify_event b (fun event => { event with attendees := attendees })

/-- `set_type` of InsertMode (`requests.rs` lines 502-504). -/
def set_type (b : CalendarEventsClient) (type_ : EventType) : CalendarEventsClient :=
  modify_event b (fun event => { event with event_type := some type_.as_str })

/-- `set_birtday_properties` of InsertMode (`requests.rs` lines 511-513). -/
def set_birtday_properties (b : CalendarEventsClient)
    (birtday_properties : BirthdayProperties) : CalendarEventsClient :=
  modify_event b (fun event => { event with birthday_properties := some birtday_properties })

/-- `set_color_id` of InsertMode (`requests.rs` lines 520-522). -/
def set_color_id (b : CalendarEventsClient) (color_id : String) : CalendarEventsClient :=
  modify_event b (fun event => { event with color_id := some color_id })

/-- `set_guests_can_invite_others` of InsertMode (`requests.rs` lines 529-531). -/
def set_guests_can_invite_others (b : CalendarEventsClient) (can_invite : Bool) :
    CalendarEventsClient :=
  modify_event b (fun event => { event with guests_can_invite_others := some can_invite })

/-- `set_guests_can_modify` of InsertMode (`requests.rs` lines 538-540). -/
def set_guests_can_modify (b : CalendarEventsClient) (can_modify : Bool) :
    CalendarEventsClient :=
  modify_event b (fun event => { event with guests_can_modify := some can_modify })

/-- `set_guests_can_see_other_guests` of InsertMode (`requests.rs` lines 547-549). -/
def set_guests_can_see_other_guests (b : CalendarEventsClient) (can_see : Bool) :
    CalendarEventsClient :=
  modify_event b (fun event => { event with guests_can_see_other_guests := some can_see })

/-- `set_id` of InsertMode (`requests.rs` lines 556-558). -/
def set_id (b : CalendarEventsClient) (id : String) : CalendarEventsClient :=
  modify_event b (fun event => { event with id := some id })

/-- `set_ical_uid` of InsertMode (`requests.rs` lines 566-568). -/
def set_ical_uid (b : CalendarEventsClient) (ical_uid : String) : CalendarEventsClient :=
  modify_event b (fun event => { event with ical_uid := some ical_uid })

/-- `set_out_of_office_properties` of InsertMode (`requests.rs` lines 575-580). -/
def set_out_of_office_properties (b : CalendarEventsClient)
    (out_of_office_properties : OutOfOfficeProperties) : CalendarEventsClient :=
  modify_event b
    (fun event => { event with out_of_office_properties := some out_of_office_properties })

/-- `set_recurrence` of InsertMode (`requests.rs` lines 587-589): the list
is wholesale-replaced. -/
def set_recurrence (b : CalendarEventsClient) (recurrence : List String) :
    CalendarEventsClient :=
  modify_event b (fun event => { event with recurrence := recurrence })

/-- `set_transparency` of InsertMode (`requests.rs` lines 596-598). -/
def set_transparency (b : CalendarEventsClient) (transparency : String) :
    CalendarEventsClient :=
  modify_event b (fun event => { event with transparency := some transparency })

/-- `set_reminders` of InsertMode (`requests.rs` lines 618-620). -/
def set_reminders (b : CalendarEventsClient) (reminders : EventReminders) :
    CalendarEventsClient :=
  modify_event b (fun event => { event with reminders := some reminders })

/-- `set_extended_properties` of InsertMode (`requests.rs` lines 647-649). -/
def set_extended_properties (b : CalendarEventsClient)
    (extended_properties : ExtendedProperties) : CalendarEventsClient :=
  modify_event b (fun event => { event with extended_properties := some extended_properties })

end EventInsertMode

namespace EventPatchMode

/-- `modify_event` of the PatchMode impl (`requests.rs` lines 960-968):
applies the modifier when the held payload is the `Patch` variant and
leaves the builder untouched otherwise. -/
def modify_event (b : CalendarEventsClient)
    (modifier : PatchEventRequest → PatchEventRequest) : CalendarEventsClient :=
  match b.event with
  | some (EventRequest.Patch e) =>
      { b with event := some (EventRequest.Patch (modifier e)) }
  | _ => b

/-- `set_end` of PatchMode (`requests.rs` lines 679-681). -/
def set_end (b : CalendarEventsClient) (end_ : EventDateTime) : CalendarEventsClient :=
  modify_event b (fun event => { event with end_ := some end_ })

/-- `set_start` of PatchMode (`requests.rs` lines 688-690). -/
def set_start (b : CalendarEventsClient) (start : EventDateTime) : CalendarEventsClient :=
  modify_event b (fun event => { event with start := some start })

/-- `set_summary` of PatchMode (`requests.rs` lines 697-699). -/
def set_summary (b : CalendarEventsClient) (summary : String) : CalendarEventsClient :=
  modify_event b (fun event => { event with summary := some summary })

/-- `set_description` of PatchMode (`requests.rs` lines 706-708). -/
def set_description (b : CalendarEventsClient) (descr : String) : CalendarEventsClient :=
  modify_event b (fun event => { event with description := some descr })

/-- `set_attendees` of PatchMode (`requests.rs` lines 718-720): the list
is wholesale-replaced. -/
def set_attendees (b : CalendarEventsClient) (attendees : List EventAttendee) :
    CalendarEventsClient :=
  modify_event b (fun event => { event with attendees := attendees })

/-- `set_color_id` of PatchMode (`requests.rs` lines 727-729). -/
def set_color_id (b : CalendarEventsClient) (id : String) : CalendarEventsClient :=
  modify_event b (fun event => { event with color_id := some id })

/-- `set_event_type` of PatchMode (`requests.rs` lines 744-746). -/
def set_event_type (b : CalendarEventsClient) (event_type : EventType) :
    CalendarEventsClient :=
  modify_event b (fun event => { event with event_type := some event_type.as_str })

/-- `set_guests_can_invite_others` of PatchMode (`requests.rs` lines 755-757). -/
def set_guests_can_invite_others (b : CalendarEventsClient) (can_invite : Bool) :
    CalendarEventsClient :=
  modify_event b (fun event => { event with guests_can_invite_others := some can_invite })

/-- `set_guests_can_modify` of PatchMode (`requests.rs` lines 766-768). -/
def set_guests_can_modify (b : CalendarEventsClient) (can_modify : Bool) :
    CalendarEventsClient :=
  modify_event b (fun event => { event with guests_can_modify := some can_modify })

/-- `set_guests_can_see_other_guests` of PatchMode (`requests.rs` lines 777-779). -/
def set_guests_can_see_other_guests (b : CalendarEventsClient) (can_see : Bool) :
    CalendarEventsClient :=
  modify_event b (fun event => { event with guests_can_see_other_guests := some can_see })

/-- `set_id` of PatchMode (`requests.rs` lines 788-790). -/
def set_id (b : CalendarEventsClient) (id : String) : CalendarEventsClient :=
  modify_event b (fun event => { event with id := some id })

/-- `set_location` of PatchMode (`requests.rs` lines 799-801). -/
def set_location (b : CalendarEventsClient) (location : String) : CalendarEventsClient :=
  modify_event b (fun event => { event with location := some location })

/-- `set_out_of_office_properties` of PatchMode (`requests.rs` lines 808-810). -/
def set_out_of_office_properties (b : CalendarEventsClient)
    (properties : OutOfOfficeProperties) : CalendarEventsClient :=
  modify_event b (fun event => { event with out_of_office_properties := some properties })

/-- `set_recurrence` of PatchMode (`requests.rs` lines 820-822): the list
is wholesale-replaced. -/
def set_recurrence (b : CalendarEventsClient) (recurrence : List String) :
    CalendarEventsClient :=
  modify_event b (fun event => { event with recurrence := recurrence })

/-- `set_reminders` of PatchMode (`requests.rs` lines 832-834). -/
def set_reminders (b : CalendarEventsClient) (reminders : EventReminders) :
    CalendarEventsClient :=
  modify_event b (fun event => { event with reminders := some reminders })

/-- `set_sequence` of PatchMode (`requests.rs` lines 841-843). -/
def set_sequence (b : CalendarEventsClient) (sequence : Int) : CalendarEventsClient :=
  modify_event b (fun event => { event with sequence := some sequence })

/-- `set_source` of PatchMode (`requests.rs` lines 850-852). -/
def set_source (b : CalendarEventsClient) (source : EventSource) : CalendarEventsClient :=
  modify_event b (fun event => { event with source := some source })

/-- `set_status` of PatchMode (`requests.rs` lines 861-863). -/
def set_status (b : CalendarEventsClient) (status : String) : CalendarEventsClient :=
  modify_event b (fun event => { event with status := some status })

/-- `set_transparancy` of PatchMode (`requests.rs` lines 873-875). -/
def set_transparancy (b : CalendarEventsClient) (transparancy : String) :
    CalendarEventsClient :=
  modify_event b (fun event => { event with transparency := some transparancy })

/-- `set_visibility` of PatchMode (`requests.rs` lines 885-887). -/
def set_visibility (b : CalendarEventsClient) (visibility : String) :
    CalendarEventsClient :=
  modify_event b (fun event => { event with visibility := some visibility })

/-- `set_working_location_properties` of PatchMode (`requests.rs`
lines 894-896). -/
def set_working_location_properties (b : CalendarEventsClient)
    (properties : WorkingLocationProperties) : CalendarEventsClient :=
  modify_event b (fun event => { event with working_location_properties := some properties })

/-- `set_extended_properties` of PatchMode (`requests.rs` lines 907-909). -/
def set_extended_properties (b : CalendarEventsClient)
    (extended_properties : ExtendedProperties) : CalendarEventsClient :=
  modify_event b (fun event => { event with extended_properties := some extended_properties })

/-- `set_send_updates` of PatchMode (`requests.rs` lines 918-923): a query
parameter, not a payload field. -/
def set_send_updates (b : CalendarEventsClient) (send : String) : CalendarEventsClient :=
  { b with request :=
      { b.request with
        params := paramsInsert "sendUpdates" send b.request.params } }

/-- `set_conference_data_version` of PatchMode (`requests.rs` lines 931-936). -/
def set_conference_data_version (b : CalendarEventsClient) (v : Int) :
    CalendarEventsClient :=
  { b with request :=
      { b.request with
        params := paramsInsert "conferenceDataVersion" (toString v) b.request.params } }

/-- `support_attachments` of PatchMode (`requests.rs` lines 942-947). -/
def support_attachments (b : CalendarEventsClient) (support : Bool) :
    CalendarEventsClient :=
  { b with request :=
      { b.request with
        params := paramsInsert "supportAttachments" (toString support) b.request.params } }

/-- `set_max_attendees` of PatchMode (`requests.rs` lines 953-958). -/
def set_max_attendees (b : CalendarEventsClient) (v : Int) : CalendarEventsClient :=
  { b with request :=
      { b.request with
        params := paramsInsert "maxAttendees" (toString v) b.request.params } }

end EventPatchMode

namespace EventDeleteMode

/-- `send_updates` of DeleteMode (`requests.rs` lines 1002-1007). -/
def send_updates (b : CalendarEventsClient) (send : String) : CalendarEventsClient :=
  { b with request :=
      { b.request with
        params := paramsInsert "sendUpdates" send b.request.params } }

end EventDeleteMode

/-- An HTTP response as the dispatch layer observes it: a status code and
the raw body text. `res.text()` is modelled as always yielding the body
(a failed body read is transport nondeterminism outside this model; the
code substitutes an empty string for it via `unwrap_or_default`). -/
structure HttpResponse where
  status : Nat
  body : String

/-- Model of `reqwest::StatusCode::is_success`: the 2xx range. -/
def HttpResponse.is_success (r : HttpResponse) : Bool :=
  decide (200 ≤ r.status) && decide (r.status < 300)

/-- `make_delete_request` (`requests.rs` lines 362-380), modelled over the
received response: the leading `refresh_access_token_check` guard is the
`refresh` argument (its failure is propagated by `?` before anything
else); a 2xx status yields `Ok(true)`, any other status yields an error
carrying the status code and the body text. The Rust status `Display`
additionally appends the canonical reason phrase after the code; the
model keeps just the decimal code. -/
def make_delete_request (refresh : Except String Unit) (resp : HttpResponse) :
    Except String Bool :=
  match refresh with
  | Except.error e => Except.error e
  | Except.ok () =>
      if resp.is_success then Except.ok true
      else
        Except.error
          ("Delete request failed with status " ++ toString resp.status
            ++ ": " ++ resp.body)

/-- `make_request` (`requests.rs` lines 381-448), modelled over the
received response. `dec` is the serde decode of the response body into
the expected result type `R` (`res.json()`); when it fails the `?`
operator propagates the serde error, modelled by the fixed message
below. The method is branched exactly as in the source: GET, POST and
PATCH classify 2xx as `Ok(Some(decoded body))` and non-2xx as an error
carrying status and body; every other verb is the unsupported-method
error. -/
def make_request {R : Type} (dec : String → Option R) (b : CalendarEventsClient)
    (refresh : Except String Unit) (resp : HttpResponse) :
    Except String (Option R) :=
  match refresh with
  | Except.error e => Except.error e
  | Except.ok () =>
      match b.request.method with
      | Method.GET =>
          if resp.is_success then
            match dec resp.body with
            | some r => Except.ok (some r)
            | none => Except.error "JSON decode error"
          else
            Except.error
              ("GET request failed with status " ++ toString resp.status
                ++ ": " ++ resp.body)
      | Method.POST =>
          if resp.is_success then
            match dec resp.body with
            | some r => Except.ok (some r)
            | none => Except.error "JSON decode error"
          else
            Except.error
              ("POST request failed with status " ++ toString resp.status
                ++ ": " ++ resp.body)
      | Method.PATCH =>
          if resp.is_success then
            match dec resp.body with
            | some r => Except.ok (some r)
            | none => Except.error "JSON decode error"
          else
            Except.error
              ("PATCH request failed with status " ++ toString resp.status
                ++ ": " ++ resp.body)
      | _ => Except.error "Unsupported HTTP method"

/-- `request` of DeleteMode (`requests.rs` lines 988-994): `Ok(true)`
from `make_delete_request` becomes plain success, `Ok(false)` (which the
dispatch never produces) becomes an error, and errors pass through. -/
def delete_request (refresh : Except String Unit) (resp : HttpResponse) :
    Except String Unit :=
  match make_delete_request refresh resp with
  | Except.ok true => Except.ok ()
  | Except.ok false => Except.error "Failed to delete event"
  | Except.error e => Except.error e

/-! Helper lemmas shared by the claim theorems. -/

/-- A JSON value with no binding for `key` indexes to `Null`. -/
theorem jsonIndex_of_not_hasKey (j : Json) (key : String)
    (h : ¬ jsonHasKey j key) : jsonIndex j key = Json.null := by
  cases j with
  | obj fields =>
      cases hl : List.lookup key fields with
      | none => simp [jsonIndex, hl]
      | some v =>
          exfalso
          apply h
          simp [jsonHasKey, hl]
  | null => rfl
  | bool b => rfl
  | num n => rfl
  | str s => rfl
  | arr elems => rfl

/-- Re-inserting a key overwrites its previous insertion. -/
theorem paramsInsert_paramsInsert (key v1 v2 : String)
    (m : List (String × String)) :
    paramsInsert key v2 (paramsInsert key v1 m) = paramsInsert key v2 m := by
  induction m with
  | nil => simp [paramsInsert]
  | cons hd tl ih =>
      obtain ⟨k0, v0⟩ := hd
      by_cases h : k0 = key
      · simp [paramsInsert, h]
      · simp [paramsInsert, h, ih]

/-- Folding a last-value-wins setter over a nonempty value list leaves
exactly the effect of the last value. -/
theorem foldl_last_wins {α β : Type} (f : α → β → α)
    (hf : ∀ (a : α) (v1 v2 : β), f (f a v1) v2 = f a v2) :
    ∀ (vs : List β) (a : α) (v : β), List.foldl f a (vs ++ [v]) = f a v := by
  intro vs
  induction vs with
  | nil => intro a v; rfl
  | cons v0 tl ih =>
      intro a v
      rw [List.cons_append, List.foldl_cons, ih (f a v0) v, hf]

/-- Writing a query parameter, factored as in every parameter setter of
the builder; used to collapse repeated writes of the same key. -/
def setParam (b : CalendarEventsClient) (key val : String) : CalendarEventsClient :=
  { b with request :=
      { b.request with params := paramsInsert key val b.request.params } }

/-- Writing the same query parameter twice keeps only the second value. -/
theorem setParam_setParam (b : CalendarEventsClient) (key x y : String) :
    setParam (setParam b key x) key y = setParam b key y := by
  simp [setParam, paramsInsert_paramsInsert]

/-- `modify_event` of InsertMode applied twice composes the modifiers. -/
theorem insert_modify_collapse {V : Type}
    (F : V → CreateEventRequest → CreateEventRequest)
    (hF : ∀ (v1 v2 : V) (e : CreateEventRequest), F v2 (F v1 e) = F v2 e)
    (b : CalendarEventsClient) (v1 v2 : V) :
    EventInsertMode.modify_event (EventInsertMode.modify_event b (F v1)) (F v2)
      = EventInsertMode.modify_event b (F v2) := by
  cases hb : b.event with
  | none => simp [EventInsertMode.modify_event, hb]
  | some e =>
      cases e with
      | Create c => simp [EventInsertMode.modify_event, hb, hF]
      | Patch p => simp [EventInsertMode.modify_event, hb]

/-- `modify_event` of PatchMode applied twice composes the modifiers. -/
theorem patch_modify_collapse {V : Type}
    (F : V → PatchEventRequest → PatchEventRequest)
    (hF : ∀ (v1 v2 : V) (e : PatchEventRequest), F v2 (F v1 e) = F v2 e)
    (b : CalendarEventsClient) (v1 v2 : V) :
    EventPatchMode.modify_event (EventPatchMode.modify_event b (F v1)) (F v2)
      = EventPatchMode.modify_event b (F v2) := by
  cases hb : b.event with
  | none => simp [EventPatchMode.modify_event, hb]
  | some e =>
      cases e with
      | Create c => simp [EventPatchMode.modify_event, hb]
      | Patch p => simp [EventPatchMode.modify_event, hb, hF]

/-! Claim theorems. -/

/-- C1: for every successful refresh response, if the response JSON
carries a `refresh_token` string the returned `AccessToken` carries that
new token; if the response omits the key, the returned token keeps the
caller's original `ClientCredentials.refresh_token` unchanged. -/
theorem claim_C1_refresh_rotation (cc : ClientCredentials) (json : Json)
    (s : String) :
    (jsonIndex json "refresh_token" = Json.str s →
      (refresh_acces_token_success cc json).refresh_token = s)
    ∧ (¬ jsonHasKey json "refresh_token" →
      (refresh_acces_token_success cc json).refresh_token = cc.refresh_token) := by
  constructor
  · intro h
    simp [refresh_acces_token_success, h, Json.as_str]
  · intro h
    simp [refresh_acces_token_success, jsonIndex_of_not_hasKey json _ h, Json.as_str]

/-- Witness for C1 at concrete inputs: a rotating response replaces the
stored token and a response without the key keeps it. -/
theorem claim_C1_refresh_rotation_witness :
    (refresh_acces_token_success
      { client_id := "id", client_secret := "sec", redirect_uri := "uri"
      , refresh_token := "oldtok" }
      (Json.obj [("refresh_token", Json.str "newtok")])).refresh_token = "newtok"
    ∧ (refresh_acces_token_success
      { client_id := "id", client_secret := "sec", redirect_uri := "uri"
      , refresh_token := "oldtok" }
      (Json.obj [("access_token", Json.str "a")])).refresh_token = "oldtok" :=
  ⟨(claim_C1_refresh_rotation _ _ "newtok").1 rfl,
   (claim_C1_refresh_rotation _ _ "").2 (by decide)⟩

/-- C10: the token built by a successful `refresh_acces_token` always has
`refresh_token_expires_in = 0`, whatever the response contains, whereas
the fallback parser of `get_acces_token` reads that field from the
response key `x_refresh_token_expires_in`. -/
theorem claim_C10_refresh_token_expires_in_zero (cc : ClientCredentials)
    (json : Json) :
    (refresh_acces_token_success cc json).refresh_token_expires_in = 0
    ∧ (get_acces_token_fallback json).refresh_token_expires_in
        = ((jsonIndex json "x_refresh_token_expires_in").as_i64).getD 0 :=
  ⟨rfl, rfl⟩

/-- C3: the four entry transitions out of the Uninitialized builder seed
exactly the documented method, URL, and payload: list is GET on
`.../calendars/{calendarId}/events` with no payload, insert is POST on
the same URL with a fresh `Create` payload, patch is PATCH on
`.../calendars/{calendarId}/events/{eventId}` with the all-absent `Patch`
payload, delete is DELETE on that URL with no payload. -/
theorem claim_C3_entry_transitions (b : CalendarEventsClient)
    (cid eid : String) (start end_ : EventDateTime) :
    ((b.get_events cid).request.method = Method.GET
      ∧ (b.get_events cid).request.url
          = "https://www.googleapis.com/calendar/v3/calendars/" ++ cid ++ "/events"
      ∧ (b.get_events cid).event = none)
    ∧ ((b.insert_event cid start end_).request.method = Method.POST
      ∧ (b.insert_event cid start end_).request.url
          = "https://www.googleapis.com/calendar/v3/calendars/" ++ cid ++ "/events"
      ∧ (b.insert_event cid start end_).event
          = some (EventRequest.Create (CreateEventRequest.new start end_)))
    ∧ ((b.patch_event cid eid).request.method = Method.PATCH
      ∧ (b.patch_event cid eid).request.url
          = "https://www.googleapis.com/calendar/v3/calendars/" ++ cid
              ++ "/events/" ++ eid
      ∧ (b.patch_event cid eid).event
          = some (EventRequest.Patch PatchEventRequest.default))
    ∧ ((b.delete_event cid eid).request.method = Method.DELETE
      ∧ (b.delete_event cid eid).request.url
          = "https://www.googleapis.com/calendar/v3/calendars/" ++ cid
              ++ "/events/" ++ eid
      ∧ (b.delete_event cid eid).event = none) :=
  ⟨⟨rfl, rfl, rfl⟩, ⟨rfl, rfl, rfl⟩, ⟨rfl, rfl, rfl⟩, ⟨rfl, rfl, rfl⟩⟩

/-- C4: the payload of a fresh InsertMode builder serializes to a wire
object holding exactly the keys `end` and `start`; no key at all is
emitted for any optional field. -/
theorem claim_C4_fresh_insert_payload (b : CalendarEventsClient)
    (cid : String) (start end_ : EventDateTime) :
    serializeOptionEventRequest (b.insert_event cid start end_).event
      = Json.obj [("end", serializeEventDateTime end_),
                  ("start", serializeEventDateTime start)] := by
  simp [serializeOptionEventRequest, serializeEventRequest,
    serializeCreateEventRequest, CalendarEventsClient.insert_event,
    CreateEventRequest.new, optField, vecField]

/-- C5: chaining `max_results n`, `time_min T1`, `time_max T2`,
`event_type Birthday` on a freshly entered ListMode builder yields the
query-parameter map holding exactly `maxResults ↦ decimal n`,
`timeMin ↦ T1 as RFC 3339`, `timeMax ↦ T2 as RFC 3339`,
`eventTypes ↦ "birthday"`, and nothing else. -/
theorem claim_C5_list_query_params (cid : String) (n : Int)
    (t1 t2 : UtcDateTime) :
    (EventListMode.event_type
      (EventListMode.time_max
        (EventListMode.time_min
          (EventListMode.max_results
            (CalendarEventsClient.new.get_events cid) n) t1) t2)
      EventType.Birthday).request.params
    = [("maxResults", toString n), ("timeMin", t1.to_rfc3339),
       ("timeMax", t2.to_rfc3339), ("eventTypes", "birthday")] := by
  rfl

/-! Reachable-state machinery for the mode/payload invariant: one
constructor per configuration method available in InsertMode
respectively PatchMode, so that "any sequence of configuration calls" is
a list of calls. -/

/-- The configuration calls InsertMode exposes (`requests.rs` lines
451-671, excluding the terminal `request`). -/
inductive InsertCall where
  | set_summary (summary : String) : InsertCall
  | set_description (descr : String) : InsertCall
  | set_location (location : String) : InsertCall
  | set_attendees (attendees : List EventAttendee) : InsertCall
  | set_type (type_ : EventType) : InsertCall
  | set_birtday_properties (p : BirthdayProperties) : InsertCall
  | set_color_id (color_id : String) : InsertCall
  | set_guests_can_invite_others (can_invite : Bool) : InsertCall
  | set_guests_can_modify (can_modify : Bool) : InsertCall
  | set_guests_can_see_other_guests (can_see : Bool) : InsertCall
  | set_id (id : String) : InsertCall
  | set_ical_uid (ical_uid : String) : InsertCall
  | set_out_of_office_properties (p : OutOfOfficeProperties) : InsertCall
  | set_recurrence (recurrence : List String) : InsertCall
  | set_transparency (transparency : String) : InsertCall
  | set_reminders (reminders : EventReminders) : InsertCall
  | set_extended_properties (e : ExtendedProperties) : InsertCall

/-- Application of one InsertMode configuration call to the builder. -/
def applyInsertCall (b : CalendarEventsClient) : InsertCall → CalendarEventsClient
  | InsertCall.set_summary s => EventInsertMode.set_summary b s
  | InsertCall.set_description d => EventInsertMode.set_description b d
  | InsertCall.set_location l => EventInsertMode.set_location b l
  | InsertCall.set_attendees a => EventInsertMode.set_attendees b a
  | InsertCall.set_type t => EventInsertMode.set_type b t
  | InsertCall.set_birtday_properties p => EventInsertMode.set_birtday_properties b p
  | InsertCall.set_color_id c => EventInsertMode.set_color_id b c
  | InsertCall.set_guests_can_invite_others x =>
      EventInsertMode.set_guests_can_invite_others b x
  | InsertCall.set_guests_can_modify x => EventInsertMode.set_guests_can_modify b x
  | InsertCall.set_guests_can_see_other_guests x =>
      EventInsertMode.set_guests_can_see_other_guests b x
  | InsertCall.set_id i => EventInsertMode.set_id b i
  | InsertCall.set_ical_uid u => EventInsertMode.set_ical_uid b u
  | InsertCall.set_out_of_office_properties p =>
      EventInsertMode.set_out_of_office_properties b p
  | InsertCall.set_recurrence r => EventInsertMode.set_recurrence b r
  | InsertCall.set_transparency t => EventInsertMode.set_transparency b t
  | InsertCall.set_reminders r => EventInsertMode.set_reminders b r
  | InsertCall.set_extended_properties e => EventInsertMode.set_extended_properties b e

/-- The configuration calls PatchMode exposes (`requests.rs` lines
673-980, excluding the terminal `request`). -/
inductive PatchCall where
  | set_end (end_ : EventDateTime) : PatchCall
  | set_start (start : EventDateTime) : PatchCall
  | set_summary (summary : String) : PatchCall
  | set_description (descr : String) : PatchCall
  | set_attendees (attendees : List EventAttendee) : PatchCall
  | set_color_id (id : String) : PatchCall
  | set_event_type (event_type : EventType) : PatchCall
  | set_guests_can_invite_others (can_invite : Bool) : PatchCall
  | set_guests_can_modify (can_modify : Bool) : PatchCall
  | set_guests_can_see_other_guests (can_see : Bool) : PatchCall
  | set_id (id : String) : PatchCall
  | set_location (location : String) : PatchCall
  | set_out_of_office_properties (p : OutOfOfficeProperties) : PatchCall
  | set_recurrence (recurrence : List String) : PatchCall
  | set_reminders (reminders : EventReminders) : PatchCall
  | set_sequence (sequence : Int) : PatchCall
  | set_source (source : EventSource) : PatchCall
  | set_status (status : String) : PatchCall
  | set_transparancy (transparancy : String) : PatchCall
  | set_visibility (visibility : String) : PatchCall
  | set_working_location_properties (p : WorkingLocationProperties) : PatchCall
  | set_extended_properties (e : ExtendedProperties) : PatchCall
  | set_send_updates (send : String) : PatchCall
  | set_conference_data_version (v : Int) : PatchCall
  | support_attachments (support : Bool) : PatchCall
  | set_max_attendees (v : Int) : PatchCall

/-- Application of one PatchMode configuration call to the builder. -/
def applyPatchCall (b : CalendarEventsClient) : PatchCall → CalendarEventsClient
  | PatchCall.set_end e => EventPatchMode.set_end b e
  | PatchCall.set_start s => EventPatchMode.set_start b s
  | PatchCall.set_summary s => EventPatchMode.set_summary b s
  | PatchCall.set_description d => EventPatchMode.set_description b d
  | PatchCall.set_attendees a => EventPatchMode.set_attendees b a
  | PatchCall.set_color_id i => EventPatchMode.set_color_id b i
  | PatchCall.set_event_type t => EventPatchMode.set_event_type b t
  | PatchCall.set_guests_can_invite_others x =>
      EventPatchMode.set_guests_can_invite_others b x
  | PatchCall.set_guests_can_modify x => EventPatchMode.set_guests_can_modify b x
  | PatchCall.set_guests_can_see_other_guests x =>
      EventPatchMode.set_guests_can_see_other_guests b x
  | PatchCall.set_id i => EventPatchMode.set_id b i
  | PatchCall.set_location l => EventPatchMode.set_location b l
  | PatchCall.set_out_of_office_properties p =>
      EventPatchMode.set_out_of_office_properties b p
  | PatchCall.set_recurrence r => EventPatchMode.set_recurrence b r
  | PatchCall.set_reminders r => EventPatchMode.set_reminders b r
  | PatchCall.set_sequence s => EventPatchMode.set_sequence b s
  | PatchCall.set_source s => EventPatchMode.set_source b s
  | PatchCall.set_status s => EventPatchMode.set_status b s
  | PatchCall.set_transparancy t => EventPatchMode.set_transparancy b t
  | PatchCall.set_visibility v => EventPatchMode.set_visibility b v
  | PatchCall.set_working_location_properties p =>
      EventPatchMode.set_working_location_properties b p
  | PatchCall.set_extended_properties e => EventPatchMode.set_extended_properties b e
  | PatchCall.set_send_updates s => EventPatchMode.set_send_updates b s
  | PatchCall.set_conference_data_version v =>
      EventPatchMode.set_conference_data_version b v
  | PatchCall.support_attachments s => EventPatchMode.support_attachments b s
  | PatchCall.set_max_attendees v => EventPatchMode.set_max_attendees b v

/-- On a `Create` payload, InsertMode's `modify_event` applies the
modifier inside the `Create` variant. -/
theorem insert_modify_event_create (b : CalendarEventsClient)
    (f : CreateEventRequest → CreateEventRequest) (e : CreateEventRequest)
    (he : b.event = some (EventRequest.Create e)) :
    (EventInsertMode.modify_event b f).event = some (EventRequest.Create (f e)) := by
  simp [EventInsertMode.modify_event, he]

/-- On a `Patch` payload, PatchMode's `modify_event` applies the modifier
inside the `Patch` variant. -/
theorem patch_modify_event_patch (b : CalendarEventsClient)
    (g : PatchEventRequest → PatchEventRequest) (e : PatchEventRequest)
    (he : b.event = some (EventRequest.Patch e)) :
    (EventPatchMode.modify_event b g).event = some (EventRequest.Patch (g e)) := by
  simp [EventPatchMode.modify_event, he]

/-- Every InsertMode configuration call keeps the payload in the `Create`
variant. -/
theorem applyInsertCall_preserves_create (b : CalendarEventsClient)
    (c : InsertCall) (h : ∃ e, b.event = some (EventRequest.Create e)) :
    ∃ e, (applyInsertCall b c).event = some (EventRequest.Create e) := by
  obtain ⟨e, he⟩ := h
  cases c
  all_goals exact ⟨_, insert_modify_event_create b _ e he⟩

/-- Every PatchMode configuration call keeps the payload in the `Patch`
variant: payload setters rewrite inside the variant and the four query
setters do not touch the payload at all. -/
theorem applyPatchCall_preserves_patch (b : CalendarEventsClient)
    (c : PatchCall) (h : ∃ e, b.event = some (EventRequest.Patch e)) :
    ∃ e, (applyPatchCall b c).event = some (EventRequest.Patch e) := by
  obtain ⟨e, he⟩ := h
  cases c
  case set_send_updates s =>
      exact ⟨e, by simp [applyPatchCall, EventPatchMode.set_send_updates, he]⟩
  case set_conference_data_version v =>
      exact ⟨e, by simp [applyPatchCall, EventPatchMode.set_conference_data_version, he]⟩
  case support_attachments s =>
      exact ⟨e, by simp [applyPatchCall, EventPatchMode.support_attachments, he]⟩
  case set_max_attendees v =>
      exact ⟨e, by simp [applyPatchCall, EventPatchMode.set_max_attendees, he]⟩
  all_goals exact ⟨_, patch_modify_event_patch b _ e he⟩

/-- A `Create` payload survives any list of InsertMode configuration
calls. -/
theorem foldl_applyInsertCall_create (calls : List InsertCall) :
    ∀ (b : CalendarEventsClient), (∃ e, b.event = some (EventRequest.Create e)) →
      ∃ e, (List.foldl applyInsertCall b calls).event = some (EventRequest.Create e) := by
  induction calls with
  | nil => intro b h; exact h
  | cons c tl ih =>
      intro b h
      exact ih _ (applyInsertCall_preserves_create b c h)

/-- A `Patch` payload survives any list of PatchMode configuration
calls. -/
theorem foldl_applyPatchCall_patch (calls : List PatchCall) :
    ∀ (b : CalendarEventsClient), (∃ e, b.event = some (EventRequest.Patch e)) →
      ∃ e, (List.foldl applyPatchCall b calls).event = some (EventRequest.Patch e) := by
  induction calls with
  | nil => intro b h; exact h
  | cons c tl ih =>
      intro b h
      exact ih _ (applyPatchCall_preserves_patch b c h)

/-- C7: after the insert entry transition and any sequence of InsertMode
configuration calls the builder holds a `Create` payload, and after the
patch entry transition and any sequence of PatchMode configuration calls
it holds a `Patch` payload — the payload variant is never asymmetric with
the mode. -/
theorem claim_C7_mode_payload_invariant (u : CalendarEventsClient)
    (cid eid : String) (start end_ : EventDateTime)
    (icalls : List InsertCall) (pcalls : List PatchCall) :
    (∃ c, (List.foldl applyInsertCall (u.insert_event cid start end_) icalls).event
        = some (EventRequest.Create c))
    ∧ (∃ p, (List.foldl applyPatchCall (u.patch_event cid eid) pcalls).event
        = some (EventRequest.Patch p)) :=
  ⟨foldl_applyInsertCall_create icalls _ ⟨_, rfl⟩,
   foldl_applyPatchCall_patch pcalls _ ⟨_, rfl⟩⟩

/-- C8: when the held payload is absent or of the other variant, the
payload-field modification primitive behind every InsertMode and
PatchMode setter returns the builder unchanged (and, being a total
function, cannot panic). -/
theorem claim_C8_defensive_noop :
    (∀ (b : CalendarEventsClient),
       (b.event = none ∨ ∃ p, b.event = some (EventRequest.Patch p)) →
       ∀ (f : CreateEventRequest → CreateEventRequest),
         EventInsertMode.modify_event b f = b)
    ∧ (∀ (b : CalendarEventsClient),
       (b.event = none ∨ ∃ c, b.event = some (EventRequest.Create c)) →
       ∀ (g : PatchEventRequest → PatchEventRequest),
         EventPatchMode.modify_event b g = b) := by
  constructor
  · intro b hb f
    rcases hb with h | ⟨p, h⟩ <;> simp [EventInsertMode.modify_event, h]
  · intro b hb g
    rcases hb with h | ⟨c, h⟩ <;> simp [EventPatchMode.modify_event, h]

/-- Witness for C8: an InsertMode field write against a `Patch` payload
and a PatchMode field write against an absent payload are both no-ops at
concrete inputs. -/
theorem claim_C8_defensive_noop_witness :
    EventInsertMode.modify_event (CalendarEventsClient.new.patch_event "cal" "ev")
      (fun e => { e with summary := some "x" })
      = CalendarEventsClient.new.patch_event "cal" "ev"
    ∧ EventPatchMode.modify_event (CalendarEventsClient.new.delete_event "cal" "ev")
      (fun e => { e with summary := some "x" })
      = CalendarEventsClient.new.delete_event "cal" "ev" :=
  ⟨claim_C8_defensive_noop.1 _ (Or.inr ⟨_, rfl⟩) _,
   claim_C8_defensive_noop.2 _ (Or.inl rfl) _⟩

/-- C2 records a divergence between code and spec: a 2xx response with an
empty body makes `make_request` propagate the JSON decode failure as an
error, and `make_request` can never produce the success-with-no-result
`Ok(None)` that the spec (and the source's own doc comments) promise.
`dec` is the serde decoder for the expected result type; serde fails on
empty input, which is the hypothesis `hdec`. -/
theorem claim_C2_empty_success_body_errors {R : Type} (dec : String → Option R)
    (hdec : dec "" = none) (cid : String) :
    make_request dec (CalendarEventsClient.new.get_events cid)
      (Except.ok ()) { status := 200, body := "" }
      = Except.error "JSON decode error"
    ∧ ∀ (b : CalendarEventsClient) (refresh : Except String Unit)
        (resp : HttpResponse),
        make_request dec b refresh resp ≠ Except.ok none := by
  constructor
  · simp [make_request, CalendarEventsClient.get_events, HttpResponse.is_success, hdec]
  · intro b refresh resp
    cases refresh with
    | error e => simp [make_request]
    | ok u =>
        cases u
        cases hm : b.request.method with
        | GET =>
            by_cases hs : resp.is_success <;>
              cases hd : dec resp.body <;>
                simp [make_request, hm, hs, hd]
        | POST =>
            by_cases hs : resp.is_success <;>
              cases hd : dec resp.body <;>
                simp [make_request, hm, hs, hd]
        | PATCH =>
            by_cases hs : resp.is_success <;>
              cases hd : dec resp.body <;>
                simp [make_request, hm, hs, hd]
        | DELETE => simp [make_request, hm]
        | PUT => simp [make_request, hm]


/-- Witness for C2's divergence theorem at a concrete decoder (one that
rejects every body, in particular the empty one) and concrete request. -/
theorem claim_C2_empty_success_body_errors_witness :
    make_request (fun _ => (none : Option Nat))
      (CalendarEventsClient.new.get_events "primary")
      (Except.ok ()) { status := 200, body := "" }
      = Except.error "JSON decode error" :=
  (claim_C2_empty_success_body_errors (fun _ => (none : Option Nat)) rfl "primary").1

/-- C6: a DeleteMode execution maps a 2xx response to plain success with
no decoded body, and any non-2xx response to an error carrying the
response's status code and body text. -/
theorem claim_C6_delete_classification (resp : HttpResponse) :
    (resp.is_success = true →
      delete_request (Except.ok ()) resp = Except.ok ())
    ∧ (resp.is_success = false →
      delete_request (Except.ok ()) resp
        = Except.error ("Delete request failed with status "
            ++ toString resp.status ++ ": " ++ resp.body)) := by
  constructor
  · intro h
    simp [delete_request, make_delete_request, h]
  · intro h
    simp [delete_request, make_delete_request, h]

/-- Witness for C6 at concrete responses: a 204 delete succeeds and a 404
delete yields the error carrying status 404 and the body text. -/
theorem claim_C6_delete_classification_witness :
    delete_request (Except.ok ()) { status := 204, body := "" } = Except.ok ()
    ∧ delete_request (Except.ok ()) { status := 404, body := "notFound" }
        = Except.error ("Delete request failed with status 404: notFound") :=
  ⟨(claim_C6_delete_classification { status := 204, body := "" }).1 rfl,
   (claim_C6_delete_classification { status := 404, body := "notFound" }).2 rfl⟩

/-- C9: every configuration method of every mode is last-value-wins —
folding any same-method call sequence `v1 .. vN` (N ≥ 1, written
`vs ++ [v]`) over the builder equals the single call with the last value;
query parameters are overwritten in place and the list-valued payload
fields (`recurrence`, `attendees`) are wholesale-replaced, never
appended. The conjuncts cover, in order, the ten ListMode methods, the
seventeen InsertMode setters, the twenty-six PatchMode methods, and
DeleteMode's `send_updates`. -/
theorem claim_C9_setters_last_wins :
    (∀ (b : CalendarEventsClient) (vs : List Int) (v : Int),
        List.foldl EventListMode.max_results b (vs ++ [v])
          = EventListMode.max_results b v)
    ∧ (∀ (b : CalendarEventsClient) (vs : List String) (v : String),
        List.foldl EventListMode.page_token b (vs ++ [v])
          = EventListMode.page_token b v)
    ∧ (∀ (b : CalendarEventsClient) (vs : List UtcDateTime) (v : UtcDateTime),
        List.foldl EventListMode.time_min b (vs ++ [v])
          = EventListMode.time_min b v)
    ∧ (∀ (b : CalendarEventsClient) (vs : List UtcDateTime) (v : UtcDateTime),
        List.foldl EventListMode.time_max b (vs ++ [v])
          = EventListMode.time_max b v)
    ∧ (∀ (b : CalendarEventsClient) (vs : List EventType) (v : EventType),
        List.foldl EventListMode.event_type b (vs ++ [v])
          = EventListMode.event_type b v)
    ∧ (∀ (b : CalendarEventsClient) (vs : List EventOrderBy) (v : EventOrderBy),
        List.foldl EventListMode.order_by b (vs ++ [v])
          = EventListMode.order_by b v)
    ∧ (∀ (b : CalendarEventsClient) (vs : List Int) (v : Int),
        List.foldl EventListMode.max_attendees b (vs ++ [v])
          = EventListMode.max_attendees b v)
    ∧ (∀ (b : CalendarEventsClient) (vs : List Bool) (v : Bool),
        List.foldl EventListMode.single_events b (vs ++ [v])
          = EventListMode.single_events b v)
    ∧ (∀ (b : CalendarEventsClient) (vs : List Bool) (v : Bool),
        List.foldl EventListMode.show_hidden_invitations b (vs ++ [v])
          = EventListMode.show_hidden_invitations b v)
    ∧ (∀ (b : CalendarEventsClient) (vs : List String) (v : String),
        List.foldl EventListMode.query b (vs ++ [v])
          = EventListMode.query b v)
    ∧ (∀ (b : CalendarEventsClient) (vs : List String) (v : String),
        List.foldl EventInsertMode.set_summary b (vs ++ [v])
          = EventInsertMode.set_summary b v)
    ∧ (∀ (b : CalendarEventsClient) (vs : List String) (v : String),
        List.foldl EventInsertMode.set_description b (vs ++ [v])
          = EventInsertMode.set_description b v)
    ∧ (∀ (b : CalendarEventsClient) (vs : List String) (v : String),
        List.foldl EventInsertMode.set_location b (vs ++ [v])
          = EventInsertMode.set_location b v)
    ∧ (∀ (b : CalendarEventsClient) (vs : List (List EventAttendee))
          (v : List EventAttendee),
        List.foldl EventInsertMode.set_attendees b (vs ++ [v])
          = EventInsertMode.set_attendees b v)
    ∧ (∀ (b : CalendarEventsClient) (vs : List EventType) (v : EventType),
        List.foldl EventInsertMode.set_type b (vs ++ [v])
          = EventInsertMode.set_type b v)
    ∧ (∀ (b : CalendarEventsClient) (vs : List BirthdayProperties)
          (v : BirthdayProperties),
        List.foldl EventInsertMode.set_birtday_properties b (vs ++ [v])
          = EventInsertMode.set_birtday_properties b v)
    ∧ (∀ (b : CalendarEventsClient) (vs : List String) (v : String),
        List.foldl EventInsertMode.set_color_id b (vs ++ [v])
          = EventInsertMode.set_color_id b v)
    ∧ (∀ (b : CalendarEventsClient) (vs : List Bool) (v : Bool),
        List.foldl EventInsertMode.set_guests_can_invite_others b (vs ++ [v])
          = EventInsertMode.set_guests_can_invite_others b v)
    ∧ (∀ (b : CalendarEventsClient) (vs : List Bool) (v : Bool),
        List.foldl EventInsertMode.set_guests_can_modify b (vs ++ [v])
          = EventInsertMode.set_guests_can_modify b v)
    ∧ (∀ (b : CalendarEventsClient) (vs : List Bool) (v : Bool),
        List.foldl EventInsertMode.set_guests_can_see_other_guests b (vs ++ [v])
          = EventInsertMode.set_guests_can_see_other_guests b v)
    ∧ (∀ (b : CalendarEventsClient) (vs : List String) (v : String),
        List.foldl EventInsertMode.set_id b (vs ++ [v])
          = EventInsertMode.set_id b v)
    ∧ (∀ (b : CalendarEventsClient) (vs : List String) (v : String),
        List.foldl EventInsertMode.set_ical_uid b (vs ++ [v])
          = EventInsertMode.set_ical_uid b v)
    ∧ (∀ (b : CalendarEventsClient) (vs : List OutOfOfficeProperties)
          (v : OutOfOfficeProperties),
        List.foldl EventInsertMode.set_out_of_office_properties b (vs ++ [v])
          = EventInsertMode.set_out_of_office_properties b v)
    ∧ (∀ (b : CalendarEventsClient) (vs : List (List String)) (v : List String),
        List.foldl EventInsertMode.set_recurrence b (vs ++ [v])
          = EventInsertMode.set_recurrence b v)
    ∧ (∀ (b : CalendarEventsClient) (vs : List String) (v : String),
        List.foldl EventInsertMode.set_transparency b (vs ++ [v])
          = EventInsertMode.set_transparency b v)
    ∧ (∀ (b : CalendarEventsClient) (vs : List EventReminders) (v : EventReminders),
        List.foldl EventInsertMode.set_reminders b (vs ++ [v])
          = EventInsertMode.set_reminders b v)
    ∧ (∀ (b : CalendarEventsClient) (vs : List ExtendedProperties)
          (v : ExtendedProperties),
        List.foldl EventInsertMode.set_extended_properties b (vs ++ [v])
          = EventInsertMode.set_extended_properties b v)
    ∧ (∀ (b : CalendarEventsClient) (vs : List EventDateTime) (v : EventDateTime),
        List.foldl EventPatchMode.set_end b (vs ++ [v])
          = EventPatchMode.set_end b v)
    ∧ (∀ (b : CalendarEventsClient) (vs : List EventDateTime) (v : EventDateTime),
        List.foldl EventPatchMode.set_start b (vs ++ [v])
          = EventPatchMode.set_start b v)
    ∧ (∀ (b : CalendarEventsClient) (vs : List String) (v : String),
        List.foldl EventPatchMode.set_summary b (vs ++ [v])
          = EventPatchMode.set_summary b v)
    ∧ (∀ (b : CalendarEventsClient) (vs : List String) (v : String),
        List.foldl EventPatchMode.set_description b (vs ++ [v])
          = EventPatchMode.set_description b v)
    ∧ (∀ (b : CalendarEventsClient) (vs : List (List EventAttendee))
          (v : List EventAttendee),
        List.foldl EventPatchMode.set_attendees b (vs ++ [v])
          = EventPatchMode.set_attendees b v)
    ∧ (∀ (b : CalendarEventsClient) (vs : List String) (v : String),
        List.foldl EventPatchMode.set_color_id b (vs ++ [v])
          = EventPatchMode.set_color_id b v)
    ∧ (∀ (b : CalendarEventsClient) (vs : List EventType) (v : EventType),
        List.foldl EventPatchMode.set_event_type b (vs ++ [v])
          = EventPatchMode.set_event_type b v)
    ∧ (∀ (b : CalendarEventsClient) (vs : List Bool) (v : Bool),
        List.foldl EventPatchMode.set_guests_can_invite_others b (vs ++ [v])
          = EventPatchMode.set_guests_can_invite_others b v)
    ∧ (∀ (b : CalendarEventsClient) (vs : List Bool) (v : Bool),
        List.foldl EventPatchMode.set_guests_can_modify b (vs ++ [v])
          = EventPatchMode.set_guests_can_modify b v)
    ∧ (∀ (b : CalendarEventsClient) (vs : List Bool) (v : Bool),
        List.foldl EventPatchMode.set_guests_can_see_other_guests b (vs ++ [v])
          = EventPatchMode.set_guests_can_see_other_guests b v)
    ∧ (∀ (b : CalendarEventsClient) (vs : List String) (v : String),
        List.foldl EventPatchMode.set_id b (vs ++ [v])
          = EventPatchMode.set_id b v)
    ∧ (∀ (b : CalendarEventsClient) (vs : List String) (v : String),
        List.foldl EventPatchMode.set_location b (vs ++ [v])
          = EventPatchMode.set_location b v)
    ∧ (∀ (b : CalendarEventsClient) (vs : List OutOfOfficeProperties)
          (v : OutOfOfficeProperties),
        List.foldl EventPatchMode.set_out_of_office_properties b (vs ++ [v])
          = EventPatchMode.set_out_of_office_properties b v)
    ∧ (∀ (b : CalendarEventsClient) (vs : List (List String)) (v : List String),
        List.foldl EventPatchMode.set_recurrence b (vs ++ [v])
          = EventPatchMode.set_recurrence b v)
    ∧ (∀ (b : CalendarEventsClient) (vs : List EventReminders) (v : EventReminders),
        List.foldl EventPatchMode.set_reminders b (vs ++ [v])
          = EventPatchMode.set_reminders b v)
    ∧ (∀ (b : CalendarEventsClient) (vs : List Int) (v : Int),
        List.foldl EventPatchMode.set_sequence b (vs ++ [v])
          = EventPatchMode.set_sequence b v)
    ∧ (∀ (b : CalendarEventsClient) (vs : List EventSource) (v : EventSource),
        List.foldl EventPatchMode.set_source b (vs ++ [v])
          = EventPatchMode.set_source b v)
    ∧ (∀ (b : CalendarEventsClient) (vs : List String) (v : String),
        List.foldl EventPatchMode.set_status b (vs ++ [v])
          = EventPatchMode.set_status b v)
    ∧ (∀ (b : CalendarEventsClient) (vs : List String) (v : String),
        List.foldl EventPatchMode.set_transparancy b (vs ++ [v])
          = EventPatchMode.set_transparancy b v)
    ∧ (∀ (b : CalendarEventsClient) (vs : List String) (v : String),
        List.foldl EventPatchMode.set_visibility b (vs ++ [v])
          = EventPatchMode.set_visibility b v)
    ∧ (∀ (b : CalendarEventsClient) (vs : List WorkingLocationProperties)
          (v : WorkingLocationProperties),
        List.foldl EventPatchMode.set_working_location_properties b (vs ++ [v])
          = EventPatchMode.set_working_location_properties b v)
    ∧ (∀ (b : CalendarEventsClient) (vs : List ExtendedProperties)
          (v : ExtendedProperties),
        List.foldl EventPatchMode.set_extended_properties b (vs ++ [v])
          = EventPatchMode.set_extended_properties b v)
    ∧ (∀ (b : CalendarEventsClient) (vs : List String) (v : String),
        List.foldl EventPatchMode.set_send_updates b (vs ++ [v])
          = EventPatchMode.set_send_updates b v)
    ∧ (∀ (b : CalendarEventsClient) (vs : List Int) (v : Int),
        List.foldl EventPatchMode.set_conference_data_version b (vs ++ [v])
          = EventPatchMode.set_conference_data_version b v)
    ∧ (∀ (b : CalendarEventsClient) (vs : List Bool) (v : Bool),
        List.foldl EventPatchMode.support_attachments b (vs ++ [v])
          = EventPatchMode.support_attachments b v)
    ∧ (∀ (b : CalendarEventsClient) (vs : List Int) (v : Int),
        List.foldl EventPatchMode.set_max_attendees b (vs ++ [v])
          = EventPatchMode.set_max_attendees b v)
    ∧ (∀ (b : CalendarEventsClient) (vs : List String) (v : String),
        List.foldl EventDeleteMode.send_updates b (vs ++ [v])
          = EventDeleteMode.send_updates b v) :=
  ⟨fun b vs v => foldl_last_wins _
      (fun a x y => setParam_setParam a "maxResults" (toString x) (toString y)) vs b v,
   fun b vs v => foldl_last_wins _
      (fun a x y => setParam_setParam a "pageToken" x y) vs b v,
   fun b vs v => foldl_last_wins _
      (fun a x y => setParam_setParam a "timeMin" x.to_rfc3339 y.to_rfc3339) vs b v,
   fun b vs v => foldl_last_wins _
      (fun a x y => setParam_setParam a "timeMax" x.to_rfc3339 y.to_rfc3339) vs b v,
   fun b vs v => foldl_last_wins _
      (fun a x y => setParam_setParam a "eventTypes" x.as_str y.as_str) vs b v,
   fun b vs v => foldl_last_wins _
      (fun a x y => setParam_setParam a "orderBy" x.as_str y.as_str) vs b v,
   fun b vs v => foldl_last_wins _
      (fun a x y => setParam_setParam a "maxAttendees" (toString x) (toString y)) vs b v,
   fun b vs v => foldl_last_wins _
      (fun a x y => setParam_setParam a "singleEvents" (toString x) (toString y)) vs b v,
   fun b vs v => foldl_last_wins _
      (fun a x y => setParam_setParam a "showHiddenInvitations" (toString x) (toString y))
      vs b v,
   fun b vs v => foldl_last_wins _
      (fun a x y => setParam_setParam a "q" x y) vs b v,
   fun b vs v => foldl_last_wins _
      (fun a x y => insert_modify_collapse
        (fun s e => { e with summary := some s }) (fun _ _ _ => rfl) a x y) vs b v,
   fun b vs v => foldl_last_wins _
      (fun a x y => insert_modify_collapse
        (fun s e => { e with description := some s }) (fun _ _ _ => rfl) a x y) vs b v,
   fun b vs v => foldl_last_wins _
      (fun a x y => insert_modify_collapse
        (fun s e => { e with location := some s }) (fun _ _ _ => rfl) a x y) vs b v,
   fun b vs v => foldl_last_wins _
      (fun a x y => insert_modify_collapse
        (fun s e => { e with attendees := s }) (fun _ _ _ => rfl) a x y) vs b v,
   fun b vs v => foldl_last_wins _
      (fun a x y => insert_modify_collapse
        (fun (t : EventType) e => { e with event_type := some t.as_str })
        (fun _ _ _ => rfl) a x y) vs b v,
   fun b vs v => foldl_last_wins _
      (fun a x y => insert_modify_collapse
        (fun p e => { e with birthday_properties := some p })
        (fun _ _ _ => rfl) a x y) vs b v,
   fun b vs v => foldl_last_wins _
      (fun a x y => insert_modify_collapse
        (fun s e => { e with color_id := some s }) (fun _ _ _ => rfl) a x y) vs b v,
   fun b vs v => foldl_last_wins _
      (fun a x y => insert_modify_collapse
        (fun (x : Bool) e => { e with guests_can_invite_others := some x })
        (fun _ _ _ => rfl) a x y) vs b v,
   fun b vs v => foldl_last_wins _
      (fun a x y => insert_modify_collapse
        (fun (x : Bool) e => { e with guests_can_modify := some x })
        (fun _ _ _ => rfl) a x y) vs b v,
   fun b vs v => foldl_last_wins _
      (fun a x y => insert_modify_collapse
        (fun (x : Bool) e => { e with guests_can_see_other_guests := some x })
        (fun _ _ _ => rfl) a x y) vs b v,
   fun b vs v => foldl_last_wins _
      (fun a x y => insert_modify_collapse
        (fun s e => { e with id := some s }) (fun _ _ _ => rfl) a x y) vs b v,
   fun b vs v => foldl_last_wins _
      (fun a x y => insert_modify_collapse
        (fun s e => { e with ical_uid := some s }) (fun _ _ _ => rfl) a x y) vs b v,
   fun b vs v => foldl_last_wins _
      (fun a x y => insert_modify_collapse
        (fun p e => { e with out_of_office_properties := some p })
        (fun _ _ _ => rfl) a x y) vs b v,
   fun b vs v => foldl_last_wins _
      (fun a x y => insert_modify_collapse
        (fun r e => { e with recurrence := r }) (fun _ _ _ => rfl) a x y) vs b v,
   fun b vs v => foldl_last_wins _
      (fun a x y => insert_modify_collapse
        (fun s e => { e with transparency := some s }) (fun _ _ _ => rfl) a x y) vs b v,
   fun b vs v => foldl_last_wins _
      (fun a x y => insert_modify_collapse
        (fun r e => { e with reminders := some r }) (fun _ _ _ => rfl) a x y) vs b v,
   fun b vs v => foldl_last_wins _
      (fun a x y => insert_modify_collapse
        (fun x e => { e with extended_properties := some x })
        (fun _ _ _ => rfl) a x y) vs b v,
   fun b vs v => foldl_last_wins _
      (fun a x y => patch_modify_collapse
        (fun x e => { e with end_ := some x }) (fun _ _ _ => rfl) a x y) vs b v,
   fun b vs v => foldl_last_wins _
      (fun a x y => patch_modify_collapse
        (fun x e => { e with start := some x }) (fun _ _ _ => rfl) a x y) vs b v,
   fun b vs v => foldl_last_wins _
      (fun a x y => patch_modify_collapse
        (fun s e => { e with summary := some s }) (fun _ _ _ => rfl) a x y) vs b v,
   fun b vs v => foldl_last_wins _
      (fun a x y => patch_modify_collapse
        (fun s e => { e with description := some s }) (fun _ _ _ => rfl) a x y) vs b v,
   fun b vs v => foldl_last_wins _
      (fun a x y => patch_modify_collapse
        (fun s e => { e with attendees := s }) (fun _ _ _ => rfl) a x y) vs b v,
   fun b vs v => foldl_last_wins _
      (fun a x y => patch_modify_collapse
        (fun s e => { e with color_id := some s }) (fun _ _ _ => rfl) a x y) vs b v,
   fun b vs v => foldl_last_wins _
      (fun a x y => patch_modify_collapse
        (fun (t : EventType) e => { e with event_type := some t.as_str })
        (fun _ _ _ => rfl) a x y) vs b v,
   fun b vs v => foldl_last_wins _
      (fun a x y => patch_modify_collapse
        (fun (x : Bool) e => { e with guests_can_invite_others := some x })
        (fun _ _ _ => rfl) a x y) vs b v,
   fun b vs v => foldl_last_wins _
      (fun a x y => patch_modify_collapse
        (fun (x : Bool) e => { e with guests_can_modify := some x })
        (fun _ _ _ => rfl) a x y) vs b v,
   fun b vs v => foldl_last_wins _
      (fun a x y => patch_modify_collapse
        (fun (x : Bool) e => { e with guests_can_see_other_guests := some x })
        (fun _ _ _ => rfl) a x y) vs b v,
   fun b vs v => foldl_last_wins _
      (fun a x y => patch_modify_collapse
        (fun s e => { e with id := some s }) (fun _ _ _ => rfl) a x y) vs b v,
   fun b vs v => foldl_last_wins _
      (fun a x y => patch_modify_collapse
        (fun s e => { e with location := some s }) (fun _ _ _ => rfl) a x y) vs b v,
   fun b vs v => foldl_last_wins _
      (fun a x y => patch_modify_collapse
        (fun p e => { e with out_of_office_properties := some p })
        (fun _ _ _ => rfl) a x y) vs b v,
   fun b vs v => foldl_last_wins _
      (fun a x y => patch_modify_collapse
        (fun r e => { e with recurrence := r }) (fun _ _ _ => rfl) a x y) vs b v,
   fun b vs v => foldl_last_wins _
      (fun a x y => patch_modify_collapse
        (fun r e => { e with reminders := some r }) (fun _ _ _ => rfl) a x y) vs b v,
   fun b vs v => foldl_last_wins _
      (fun a x y => patch_modify_collapse
        (fun (s : Int) e => { e with sequence := some s })
        (fun _ _ _ => rfl) a x y) vs b v,
   fun b vs v => foldl_last_wins _
      (fun a x y => patch_modify_collapse
        (fun s e => { e with source := some s }) (fun _ _ _ => rfl) a x y) vs b v,
   fun b vs v => foldl_last_wins _
      (fun a x y => patch_modify_collapse
        (fun s e => { e with status := some s }) (fun _ _ _ => rfl) a x y) vs b v,
   fun b vs v => foldl_last_wins _
      (fun a x y => patch_modify_collapse
        (fun s e => { e with transparency := some s }) (fun _ _ _ => rfl) a x y) vs b v,
   fun b vs v => foldl_last_wins _
      (fun a x y => patch_modify_collapse
        (fun s e => { e with visibility := some s }) (fun _ _ _ => rfl) a x y) vs b v,
   fun b vs v => foldl_last_wins _
      (fun a x y => patch_modify_collapse
        (fun p e => { e with working_location_properties := some p })
        (fun _ _ _ => rfl) a x y) vs b v,
   fun b vs v => foldl_last_wins _
      (fun a x y => patch_modify_collapse
        (fun x e => { e with extended_properties := some x })
        (fun _ _ _ => rfl) a x y) vs b v,
   fun b vs v => foldl_last_wins _
      (fun a x y => setParam_setParam a "sendUpdates" x y) vs b v,
   fun b vs v => foldl_last_wins _
      (fun a x y => setParam_setParam a "conferenceDataVersion" (toString x) (toString y))
      vs b v,
   fun b vs v => foldl_last_wins _
      (fun a x y => setParam_setParam a "supportAttachments" (toString x) (toString y))
      vs b v,
   fun b vs v => foldl_last_wins _
      (fun a x y => setParam_setParam a "maxAttendees" (toString x) (toString y)) vs b v,
   fun b vs v => foldl_last_wins _
      (fun a x y => setParam_setParam a "sendUpdates" x y) vs b v⟩

end GoogleWorkspaceApis
